import Mathlib

/-!
Shallow embedding of `src/bot.py`: the per-user sliding-window rate limiter
(`RateLimiter.is_rate_limited`), the completion wrapper (`get_llm_response`)
and the message orchestrator (`process_message`).

Time is modelled in seconds as `Int` (the source uses `datetime.now()` and
`timedelta(minutes=1)`, i.e. a 60-second window). External effects (the
completion call outcome, transport failures) are passed in as explicit
parameters; outbound sends are returned as data.
-/

/-- Config.RATE_LIMIT: maximum requests per minute (default 3). -/
def RATE_LIMIT : Nat := 3

/-- The pruning step of `is_rate_limited`: keep only timestamps strictly
newer than `now - timedelta(minutes=1)` (60 seconds). -/
def prune (now : Int) (l : List Int) : List Int :=
  l.filter (fun req => decide (now - 60 < req))

/-- One call of `RateLimiter.is_rate_limited` acting on a single user's
timestamp list: prune, then deny without recording if the pruned count is
at least the threshold, otherwise append `now` and admit. Returns
(denied?, new list). -/
def rl_step (now : Int) (l : List Int) : Bool × List Int :=
  if RATE_LIMIT ≤ (prune now l).length then (true, prune now l)
  else (false, prune now l ++ [now])

/-- RateLimiter state: `self.user_requests`, a `defaultdict(list)` from
user id to the list of recorded request timestamps. -/
structure RateLimiterState where
  user_requests : Nat → List Int

/-- RateLimiter.__init__: the empty map (every user defaults to `[]`). -/
def RateLimiter.init : RateLimiterState :=
  ⟨fun _ => []⟩

/-- RateLimiter.is_rate_limited(user_id) at time `now`: prunes and updates
the entry of `user_id` only, returning (denied?, new state). -/
def is_rate_limited (s : RateLimiterState) (user_id : Nat) (now : Int) :
    Bool × RateLimiterState :=
  let r := rl_step now (s.user_requests user_id)
  (r.1, ⟨fun u => if u = user_id then r.2 else s.user_requests u⟩)

/-- Canned throttling message returned by `get_llm_response` when the rate
check denies (line 72). -/
def rate_limited_msg : String :=
  "⚠️ Слишком много запросов. Пожалуйста, подождите минуту."

/-- Timeout-specific message returned on `asyncio.TimeoutError` (line 85). -/
def timeout_msg : String :=
  "⌛ Время ожидания ответа истекло. Попробуйте позже."

/-- Transient processing notice sent by `process_message` (line 128). -/
def processing_msg : String :=
  "🔄 Обрабатываю ваш запрос..."

/-- Generic apology sent by `process_message` when `get_llm_response`
returned `None` (lines 146-149). -/
def apology_msg : String :=
  "⚠️ Произошла ошибка при обработке запроса.\nПопробуйте переформулировать вопрос или повторите позже."

/-- Message sent by the outer `except` boundary of `process_message`
(lines 153-156). -/
def unexpected_msg : String :=
  "⛔ Произошла непредвиденная ошибка.\nРазработчик уже уведомлен. Пожалуйста, попробуйте позже."

/-- Outcome of the single completion call issued by `get_llm_response`:
the awaited call either yields a first-choice text, exceeds the timeout
(`asyncio.TimeoutError`), or raises any other provider error. -/
inductive CompletionOutcome where
  | success (text : String)
  | timeout
  | failure
deriving DecidableEq

/-- Result of `get_llm_response`: the returned `Optional[str]` (None on a
generic provider error), the rate-limiter state after the call, and
whether the completion endpoint was actually invoked. -/
structure LlmResult where
  reply : Option String
  state : RateLimiterState
  completionCalled : Bool

/-- get_llm_response(user_id, message_text) at time `now`, with the
completion call's outcome supplied as `outcome`: checks the rate limiter
first and returns the canned throttling text when denied (never calling
the endpoint); otherwise issues the call and translates its outcome. -/
def get_llm_response (s : RateLimiterState) (user_id : Nat) (now : Int)
    (outcome : CompletionOutcome) : LlmResult :=
  let r := is_rate_limited s user_id now
  if r.1 then
    { reply := some rate_limited_msg, state := r.2, completionCalled := false }
  else
    match outcome with
    | .success text => { reply := some text, state := r.2, completionCalled := true }
    | .timeout => { reply := some timeout_msg, state := r.2, completionCalled := true }
    | .failure => { reply := none, state := r.2, completionCalled := true }

/-- Observable result of one `process_message` run: whether the transient
notice was sent, whether the completion endpoint was invoked, whether a
failed notice deletion was logged and swallowed, the final replies sent to
the user, and the rate-limiter state afterwards. -/
structure MsgOutcome where
  noticeSent : Bool
  completionCalled : Bool
  deleteFailedLogged : Bool
  finalReplies : List String
  state : RateLimiterState

/-- process_message at time `now` for user `userId`. `textRaises` models an
unexpected exception at the start of the `try` block (e.g. `message.text`
being `None` at line 125), caught by the outer boundary; `deleteFails`
models `bot.delete_message` raising, which is logged and swallowed
(lines 134-140). The notice is sent before `get_llm_response` runs, so
before any rate check; the final send is the reply when it is not `None`
and the generic apology otherwise. -/
def process_message (s : RateLimiterState) (userId : Nat) (now : Int)
    (outcome : CompletionOutcome) (deleteFails : Bool) (textRaises : Bool) :
    MsgOutcome :=
  if textRaises then
    { noticeSent := false, completionCalled := false, deleteFailedLogged := false,
      finalReplies := [unexpected_msg], state := s }
  else
    let r := get_llm_response s userId now outcome
    match r.reply with
    | some t =>
        { noticeSent := true, completionCalled := r.completionCalled,
          deleteFailedLogged := deleteFails, finalReplies := [t], state := r.state }
    | none =>
        { noticeSent := true, completionCalled := r.completionCalled,
          deleteFailedLogged := deleteFails, finalReplies := [apology_msg], state := r.state }

/-- Folding a sequence of `is_rate_limited` calls (user id, time) over a
state: the reachable states of the limiter. -/
def run_calls (s : RateLimiterState) (calls : List (Nat × Int)) : RateLimiterState :=
  calls.foldl (fun st c => (is_rate_limited st c.1 c.2).2) s

/-- Calling `is_rate_limited` for user `u` once per time in `ts`, threading
the state and collecting the returned booleans in order. -/
def run_results (s : RateLimiterState) (u : Nat) (ts : List Int) : List Bool :=
  match ts with
  | [] => []
  | t :: rest => (is_rate_limited s u t).1 :: run_results (is_rate_limited s u t).2 u rest

/-- The same call sequence at the level of one user's timestamp list. -/
def rl_run (l : List Int) (ts : List Int) : List Bool :=
  match ts with
  | [] => []
  | t :: rest => (rl_step t l).1 :: rl_run (rl_step t l).2 rest

-- ===== helper lemmas =====

theorem rl_step_denied (now : Int) (l : List Int)
    (h : RATE_LIMIT ≤ (prune now l).length) :
    rl_step now l = (true, prune now l) := by
  simp [rl_step, h]

theorem rl_step_admitted (now : Int) (l : List Int)
    (h : (prune now l).length < RATE_LIMIT) :
    rl_step now l = (false, prune now l ++ [now]) := by
  simp [rl_step, Nat.not_le.mpr h]

theorem prune_of_all_in_window (now : Int) (l : List Int)
    (h : ∀ e ∈ l, now - 60 < e) :
    prune now l = l := by
  simp only [prune]
  exact List.filter_eq_self.mpr (fun e he => by simpa using h e he)

theorem is_rate_limited_fst (s : RateLimiterState) (u : Nat) (now : Int) :
    (is_rate_limited s u now).1 = (rl_step now (s.user_requests u)).1 := rfl

theorem is_rate_limited_snd_self (s : RateLimiterState) (u : Nat) (now : Int) :
    (is_rate_limited s u now).2.user_requests u = (rl_step now (s.user_requests u)).2 := by
  simp [is_rate_limited]

theorem is_rate_limited_snd_other (s : RateLimiterState) (u v : Nat) (now : Int)
    (h : v ≠ u) :
    (is_rate_limited s u now).2.user_requests v = s.user_requests v := by
  simp [is_rate_limited, h]

theorem mem_prune {now : Int} {l : List Int} {e : Int} (h : e ∈ prune now l) :
    e ∈ l ∧ now - 60 < e := by
  simpa [prune] using h

theorem rl_step_fst_true_iff (now : Int) (l : List Int) :
    (rl_step now l).1 = true ↔ RATE_LIMIT ≤ (prune now l).length := by
  unfold rl_step
  split <;> simp_all

theorem rl_step_denied_snd (now : Int) (l : List Int)
    (h : (rl_step now l).1 = true) :
    (rl_step now l).2 = prune now l := by
  unfold rl_step at h ⊢
  split <;> simp_all

theorem rl_step_admitted_snd (now : Int) (l : List Int)
    (h : (rl_step now l).1 = false) :
    (rl_step now l).2 = prune now l ++ [now] := by
  unfold rl_step at h ⊢
  split <;> simp_all

theorem mem_rl_step_snd {now : Int} {l : List Int} {e : Int}
    (h : e ∈ (rl_step now l).2) : (e ∈ l ∧ now - 60 < e) ∨ e = now := by
  unfold rl_step at h
  split at h
  · exact Or.inl (mem_prune h)
  · rcases List.mem_append.mp h with h | h
    · exact Or.inl (mem_prune h)
    · exact Or.inr (List.mem_singleton.mp h)

theorem rl_step_len (now : Int) (l : List Int) (h : l.length ≤ RATE_LIMIT) :
    ((rl_step now l).2).length ≤ RATE_LIMIT := by
  unfold rl_step
  split
  · exact le_trans (List.length_filter_le _ _) h
  · rename_i hc
    have h1 : (prune now l).length < RATE_LIMIT := Nat.lt_of_not_le hc
    simp only [List.length_append, List.length_singleton]
    omega

theorem run_calls_len (calls : List (Nat × Int)) (s : RateLimiterState)
    (h : ∀ u, (s.user_requests u).length ≤ RATE_LIMIT) :
    ∀ u, ((run_calls s calls).user_requests u).length ≤ RATE_LIMIT := by
  induction calls generalizing s with
  | nil => exact h
  | cons c rest ih =>
      show ∀ u, ((run_calls (is_rate_limited s c.1 c.2).2 rest).user_requests u).length ≤ RATE_LIMIT
      apply ih
      intro u
      by_cases hu : u = c.1
      · subst hu
        rw [is_rate_limited_snd_self]
        exact rl_step_len _ _ (h c.1)
      · rw [is_rate_limited_snd_other s c.1 u c.2 hu]
        exact h u

theorem run_results_eq_rl_run (s : RateLimiterState) (u : Nat) (ts : List Int) :
    run_results s u ts = rl_run (s.user_requests u) ts := by
  induction ts generalizing s with
  | nil => rfl
  | cons t rest ih =>
      simp only [run_results, rl_run, ih, is_rate_limited_fst, is_rate_limited_snd_self]

theorem rl_run_windowed (t0 : Int) (ts : List Int) (l : List Int)
    (hl : ∀ e ∈ l, t0 ≤ e)
    (hlen : l.length ≤ RATE_LIMIT)
    (hts : ∀ t ∈ ts, t0 ≤ t ∧ t - t0 < 60) :
    rl_run l ts =
      List.replicate (min (RATE_LIMIT - l.length) ts.length) false ++
      List.replicate (ts.length - (RATE_LIMIT - l.length)) true := by
  induction ts generalizing l with
  | nil => simp [rl_run]
  | cons t rest ih =>
      have ht := hts t (List.mem_cons_self t rest)
      have hrest : ∀ x ∈ rest, t0 ≤ x ∧ x - t0 < 60 :=
        fun x hx => hts x (List.mem_cons_of_mem t hx)
      have hprune : prune t l = l := by
        apply prune_of_all_in_window
        intro e he
        have := hl e he
        omega
      by_cases hfull : RATE_LIMIT ≤ l.length
      · have hstep : rl_step t l = (true, l) := by
          rw [rl_step_denied t l (by rw [hprune]; exact hfull), hprune]
        have hrec := ih l hl hlen hrest
        simp only [rl_run, hstep]
        rw [hrec]
        have h30 : RATE_LIMIT - l.length = 0 := by omega
        rw [h30]
        simp [List.replicate_succ]
      · have hlt : l.length < RATE_LIMIT := Nat.lt_of_not_le hfull
        have hstep : rl_step t l = (false, l ++ [t]) := by
          rw [rl_step_admitted t l (by rw [hprune]; exact hlt), hprune]
        have hl' : ∀ e ∈ l ++ [t], t0 ≤ e := by
          intro e he
          rcases List.mem_append.mp he with he | he
          · exact hl e he
          · rw [List.mem_singleton.mp he]
            exact ht.1
        have hlen' : (l ++ [t]).length ≤ RATE_LIMIT := by
          simp only [List.length_append, List.length_singleton]
          omega
        have hrec := ih (l ++ [t]) hl' hlen' hrest
        simp only [rl_run, hstep]
        rw [hrec]
        simp only [List.length_append, List.length_singleton, List.length_cons]
        have e1 : min (RATE_LIMIT - l.length) (rest.length + 1) =
            min (RATE_LIMIT - (l.length + 1)) rest.length + 1 := by omega
        have e2 : rest.length + 1 - (RATE_LIMIT - l.length) =
            rest.length - (RATE_LIMIT - (l.length + 1)) := by omega
        rw [e1, e2]
        simp [List.replicate_succ]

/-- A state whose user 0 has three requests recorded at time 0: the state
reached from a fresh limiter by three admitted calls of user 0 at time 0. -/
def s3 : RateLimiterState :=
  ⟨fun u => if u = 0 then [0, 0, 0] else []⟩

-- ===== claims =====

/-- Claim C1: starting from a fresh limiter, for any user and any sequence
of call times that all fall inside a single 60-second window starting at
t0, the results of the successive is_rate_limited calls are exactly: false
(admitted) for the first RATE_LIMIT (3) calls, and true (denied) for every
further call within that same window — the 4th, 5th, 6th and so on. -/
theorem C1_threshold_in_window (u : Nat) (t0 : Int) (ts : List Int)
    (hts : ∀ t ∈ ts, t0 ≤ t ∧ t - t0 < 60) :
    run_results RateLimiter.init u ts =
      List.replicate (min RATE_LIMIT ts.length) false ++
      List.replicate (ts.length - RATE_LIMIT) true := by
  have h := rl_run_windowed t0 ts [] (by simp) (by simp [RATE_LIMIT]) hts
  rw [run_results_eq_rl_run]
  show rl_run ([] : List Int) ts = _
  rw [h]
  simp

/-- Witness for C1: five immediate calls of user 0 at time 0 yield
[false, false, false, true, true] — both calls past the threshold denied. -/
theorem C1_threshold_in_window_witness :
    (∀ t ∈ [(0 : Int), 0, 0, 0, 0], (0 : Int) ≤ t ∧ t - 0 < 60) ∧
    run_results RateLimiter.init 0 [0, 0, 0, 0, 0] =
      List.replicate (min RATE_LIMIT [(0 : Int), 0, 0, 0, 0].length) false ++
      List.replicate ([(0 : Int), 0, 0, 0, 0].length - RATE_LIMIT) true :=
  ⟨by decide, C1_threshold_in_window 0 0 [0, 0, 0, 0, 0] (by decide)⟩

/-- Claim C5: immediately after any call to is_rate_limited, provided all
previously stored timestamps are not in the future of the call time `now`,
the user's stored timestamp list contains only timestamps strictly within
the last 60 seconds of `now`. -/
theorem C5_window_invariant (s : RateLimiterState) (u : Nat) (now : Int)
    (hpast : ∀ e ∈ s.user_requests u, e ≤ now) :
    ∀ e ∈ (is_rate_limited s u now).2.user_requests u, now - 60 < e ∧ e ≤ now := by
  intro e he
  rw [is_rate_limited_snd_self] at he
  rcases mem_rl_step_snd he with ⟨hmem, hwin⟩ | heq
  · exact ⟨hwin, hpast e hmem⟩
  · subst heq
    exact ⟨by omega, le_refl e⟩

/-- Witness for C5 at the concrete state s3, user 0, time 0. -/
theorem C5_window_invariant_witness :
    (∀ e ∈ s3.user_requests 0, e ≤ (0:Int)) ∧
    (∀ e ∈ (is_rate_limited s3 0 0).2.user_requests 0, (0:Int) - 60 < e ∧ e ≤ 0) :=
  ⟨by decide, C5_window_invariant s3 0 0 (by decide)⟩

/-- Claim C7: a call to is_rate_limited that returns true (denied) appends
no new timestamp: the stored list after the call is exactly the pruned
list of previously admitted requests. -/
theorem C7_denied_appends_nothing (s : RateLimiterState) (u : Nat) (now : Int)
    (h : (is_rate_limited s u now).1 = true) :
    (is_rate_limited s u now).2.user_requests u = prune now (s.user_requests u) := by
  have h' : (rl_step now (s.user_requests u)).1 = true := by
    rw [← is_rate_limited_fst]
    exact h
  rw [is_rate_limited_snd_self, rl_step_denied_snd _ _ h']

/-- Witness for C7 at the concrete state s3, user 0, time 0 (a denied call). -/
theorem C7_denied_appends_nothing_witness :
    (is_rate_limited s3 0 0).1 = true ∧
    (is_rate_limited s3 0 0).2.user_requests 0 = prune 0 (s3.user_requests 0) :=
  ⟨by decide, C7_denied_appends_nothing s3 0 0 (by decide)⟩

/-- Claim C9: starting from a fresh limiter, after any sequence of
is_rate_limited calls every user's stored timestamp list has length at
most the configured threshold RATE_LIMIT (3). -/
theorem C9_length_at_most_threshold (calls : List (Nat × Int)) (u : Nat) :
    ((run_calls RateLimiter.init calls).user_requests u).length ≤ RATE_LIMIT :=
  run_calls_len calls RateLimiter.init (fun _ => Nat.zero_le _) u

/-- Claim C10: a call to is_rate_limited for user u leaves the stored
timestamp list of every other user v unchanged. -/
theorem C10_other_user_unchanged (s : RateLimiterState) (u v : Nat) (now : Int)
    (h : v ≠ u) :
    (is_rate_limited s u now).2.user_requests v = s.user_requests v :=
  is_rate_limited_snd_other s u v now h

/-- Witness for C10: a call for user 0 on state s3 leaves user 1's list unchanged. -/
theorem C10_other_user_unchanged_witness :
    (1 : Nat) ≠ 0 ∧ (is_rate_limited s3 0 0).2.user_requests 1 = s3.user_requests 1 :=
  ⟨by decide, C10_other_user_unchanged s3 0 1 0 (by decide)⟩

/-- Counterexample to claim C2 as stated: at the concrete denied input
(state s3, user 0, time 0) the rate check denies, yet process_message
still sends the transient processing notice, because the notice is sent
before get_llm_response performs the rate check. -/
theorem C2_denied_counterexample :
    (is_rate_limited s3 0 0).1 = true ∧
    (process_message s3 0 0 CompletionOutcome.timeout false false).noticeSent = true := by
  constructor
  · decide
  · decide

/-- Claim C2 as amended: for every denied message, process_message still
sends the transient processing notice (it is sent before the rate check),
but never invokes the completion client, and the sole final reply is the
canned throttling message. -/
theorem C2_denied_flow (s : RateLimiterState) (u : Nat) (now : Int)
    (oc : CompletionOutcome) (d : Bool)
    (h : (is_rate_limited s u now).1 = true) :
    (process_message s u now oc d false).noticeSent = true ∧
    (process_message s u now oc d false).completionCalled = false ∧
    (process_message s u now oc d false).finalReplies = [rate_limited_msg] := by
  refine ⟨?_, ?_, ?_⟩ <;> simp [process_message, get_llm_response, h]

/-- Witness for the amended C2 at the concrete denied input s3, user 0, time 0. -/
theorem C2_denied_flow_witness :
    (is_rate_limited s3 0 0).1 = true ∧
    ((process_message s3 0 0 CompletionOutcome.failure false false).noticeSent = true ∧
     (process_message s3 0 0 CompletionOutcome.failure false false).completionCalled = false ∧
     (process_message s3 0 0 CompletionOutcome.failure false false).finalReplies = [rate_limited_msg]) :=
  ⟨by decide, C2_denied_flow s3 0 0 CompletionOutcome.failure false (by decide)⟩

/-- Counterexample to claim C3 as stated: from a fresh limiter, a run whose
completion call times out delivers a different final text than a run whose
completion call fails with a generic provider error, so the failure text is
not identical across failure kinds. -/
theorem C3_identical_text_counterexample :
    (is_rate_limited RateLimiter.init 0 0).1 = false ∧
    (process_message RateLimiter.init 0 0 CompletionOutcome.timeout false false).finalReplies ≠
      (process_message RateLimiter.init 0 0 CompletionOutcome.failure false false).finalReplies := by
  constructor
  · decide
  · decide

/-- Claim C3 as amended: when the rate check admits, a Timeout makes
get_llm_response return the timeout-specific text while any other Failure
makes it return None; the delivered texts are the timeout message and the
generic apology respectively, and they differ. -/
theorem C3_failure_texts_differ (s : RateLimiterState) (u : Nat) (now : Int)
    (d : Bool) (h : (is_rate_limited s u now).1 = false) :
    (get_llm_response s u now CompletionOutcome.timeout).reply = some timeout_msg ∧
    (get_llm_response s u now CompletionOutcome.failure).reply = none ∧
    (process_message s u now CompletionOutcome.timeout d false).finalReplies ≠
      (process_message s u now CompletionOutcome.failure d false).finalReplies := by
  refine ⟨?_, ?_, ?_⟩
  · simp [get_llm_response, h]
  · simp [get_llm_response, h]
  · simp only [process_message, get_llm_response, h]
    simp
    decide

/-- Witness for the amended C3 at the fresh limiter, user 0, time 0. -/
theorem C3_failure_texts_differ_witness :
    (is_rate_limited RateLimiter.init 0 0).1 = false ∧
    ((get_llm_response RateLimiter.init 0 0 CompletionOutcome.timeout).reply = some timeout_msg ∧
     (get_llm_response RateLimiter.init 0 0 CompletionOutcome.failure).reply = none ∧
     (process_message RateLimiter.init 0 0 CompletionOutcome.timeout false false).finalReplies ≠
       (process_message RateLimiter.init 0 0 CompletionOutcome.failure false false).finalReplies) :=
  ⟨by decide, C3_failure_texts_differ RateLimiter.init 0 0 false (by decide)⟩

/-- Claim C4: when the rate check admits, a timed-out completion call makes
the user receive exactly the timeout-specific message (so no model reply
text is used), and any other provider error makes the user receive the
generic apology, which is not the timeout message. -/
theorem C4_timeout_vs_failure (s : RateLimiterState) (u : Nat) (now : Int)
    (d : Bool) (h : (is_rate_limited s u now).1 = false) :
    (process_message s u now CompletionOutcome.timeout d false).finalReplies = [timeout_msg] ∧
    (process_message s u now CompletionOutcome.failure d false).finalReplies = [apology_msg] ∧
    apology_msg ≠ timeout_msg := by
  refine ⟨?_, ?_, ?_⟩
  · simp [process_message, get_llm_response, h]
  · simp [process_message, get_llm_response, h]
  · decide

/-- Witness for C4 at the fresh limiter, user 5, time 10. -/
theorem C4_timeout_vs_failure_witness :
    (is_rate_limited RateLimiter.init 5 10).1 = false ∧
    ((process_message RateLimiter.init 5 10 CompletionOutcome.timeout true false).finalReplies = [timeout_msg] ∧
     (process_message RateLimiter.init 5 10 CompletionOutcome.failure true false).finalReplies = [apology_msg] ∧
     apology_msg ≠ timeout_msg) :=
  ⟨by decide, C4_timeout_vs_failure RateLimiter.init 5 10 true (by decide)⟩

/-- Claim C8: every run of process_message — rate limited, success, timeout,
provider failure, or an unexpected exception caught at the outer boundary,
with or without a failing notice deletion — sends exactly one final reply
to the user. -/
theorem C8_exactly_one_reply (s : RateLimiterState) (u : Nat) (now : Int)
    (oc : CompletionOutcome) (deleteFails textRaises : Bool) :
    (process_message s u now oc deleteFails textRaises).finalReplies.length = 1 := by
  cases textRaises with
  | true => rfl
  | false =>
    cases h : (is_rate_limited s u now).1 with
    | true => simp [process_message, get_llm_response, h]
    | false => cases oc <;> simp [process_message, get_llm_response, h]

/-- Claim C6: on any state reachable from a fresh limiter, if a call for
user u at time t is denied and m is the earliest timestamp of the window
that caused the denial, then once more than 60 seconds have elapsed past m
the next call for u is admitted again. -/
theorem C6_readmitted_after_window (calls : List (Nat × Int)) (u : Nat)
    (t tNext m : Int)
    (hden : (is_rate_limited (run_calls RateLimiter.init calls) u t).1 = true)
    (hmem : m ∈ (is_rate_limited (run_calls RateLimiter.init calls) u t).2.user_requests u)
    (hmin : ∀ e ∈ (is_rate_limited (run_calls RateLimiter.init calls) u t).2.user_requests u, m ≤ e)
    (helapsed : 60 < tNext - m) :
    (is_rate_limited (is_rate_limited (run_calls RateLimiter.init calls) u t).2 u tNext).1 = false := by
  set s := run_calls RateLimiter.init calls with hs
  have hlen : (s.user_requests u).length ≤ RATE_LIMIT :=
    run_calls_len calls RateLimiter.init (fun _ => Nat.zero_le _) u
  have hden' : (rl_step t (s.user_requests u)).1 = true := by
    rw [← is_rate_limited_fst]
    exact hden
  have hLeq : (is_rate_limited s u t).2.user_requests u = prune t (s.user_requests u) := by
    rw [is_rate_limited_snd_self, rl_step_denied_snd _ _ hden']
  rw [hLeq] at hmem hmin
  have hL3 : RATE_LIMIT ≤ (prune t (s.user_requests u)).length :=
    (rl_step_fst_true_iff t (s.user_requests u)).mp hden'
  have hLle : (prune t (s.user_requests u)).length ≤ (s.user_requests u).length :=
    List.length_filter_le _ _
  have hdrop : (prune tNext (prune t (s.user_requests u))).length <
      (prune t (s.user_requests u)).length := by
    rw [prune, List.length_filter_lt_length_iff_exists]
    exact ⟨m, hmem, by simp; omega⟩
  rw [is_rate_limited_fst, hLeq]
  cases hfin : (rl_step tNext (prune t (s.user_requests u))).1 with
  | false => rfl
  | true =>
    exfalso
    have := (rl_step_fst_true_iff _ _).mp hfin
    omega

/-- Witness for C6: three admitted calls of user 0 at time 0, a denied
fourth call at time 0 whose earliest window timestamp is 0, and a call at
time 61 that is admitted again. -/
theorem C6_readmitted_after_window_witness :
    ((is_rate_limited (run_calls RateLimiter.init [(0, 0), (0, 0), (0, 0)]) 0 0).1 = true ∧
     (0 : Int) ∈ (is_rate_limited (run_calls RateLimiter.init [(0, 0), (0, 0), (0, 0)]) 0 0).2.user_requests 0 ∧
     (∀ e ∈ (is_rate_limited (run_calls RateLimiter.init [(0, 0), (0, 0), (0, 0)]) 0 0).2.user_requests 0, (0 : Int) ≤ e) ∧
     (60 : Int) < 61 - 0) ∧
    (is_rate_limited (is_rate_limited (run_calls RateLimiter.init [(0, 0), (0, 0), (0, 0)]) 0 0).2 0 61).1 = false :=
  ⟨⟨by decide, by decide, by decide, by decide⟩,
   C6_readmitted_after_window [(0, 0), (0, 0), (0, 0)] 0 0 61 0
     (by decide) (by decide) (by decide) (by decide)⟩
